import Mathlib

/-!
Shallow embedding of the `aiomanager` library (modules `deadline.py`,
`results.py`, `task.py`, `manager.py`) and proofs about its claims.

Timestamps and durations are modelled as `Int` (the Python code uses floats
only as wall-clock seconds combined with `+`, `min` and `<=`).  The injectable
`clock` callable is modelled by passing the current clock reading as an
explicit argument.  Exceptions are modelled as opaque codes (`Nat`).
-/

namespace AioManager

/-- Opaque model of a Python exception object. -/
abbrev Exc := Nat

/-- Python truthiness of a `float | None` argument: `None` and `0` are falsy. -/
def truthy : Option Int → Bool
  | some v => v != 0
  | none => false

/-- `option.is_some_and(predicate)` from `results.py`. -/
def isSomeAnd (o : Option Int) (p : Int → Bool) : Bool :=
  match o with
  | some v => p v
  | none => false

/-- `create_deadline(*, timeout, deadline, clock)` from `deadline.py`:
branches on Python truthiness of the two optional arguments. -/
def create_deadline (timeout deadline : Option Int) (clock : Int) : Option Int :=
  if truthy deadline && truthy timeout then
    some (min (clock + timeout.getD 0) (deadline.getD 0))
  else if truthy deadline then deadline
  else if truthy timeout then some (clock + timeout.getD 0)
  else none

/-- `deadline_is_expired(deadline, clock)` from `deadline.py`. -/
def deadline_is_expired (deadline : Int) (clock : Int) : Bool :=
  deadline - clock ≤ 0

/-- `deadline_to_timeout(deadline, clock)` from `deadline.py`. -/
def deadline_to_timeout (deadline : Int) (clock : Int) : Int :=
  deadline - clock

/-- `Result[T, E]` from `results.py` (`Ok` / `Err`). -/
inductive RResult (T E : Type) where
  | ok (value : T)
  | err (value : E)
deriving DecidableEq, Repr

/-- `Result.__bool__`: `Ok` is truthy, `Err` is falsy. -/
def RResult.toBool : RResult T E → Bool
  | .ok _ => true
  | .err _ => false

/-- `Result.ok()`: the success payload as an option. -/
def RResult.okOpt : RResult T E → Option T
  | .ok v => some v
  | .err _ => none

/-- `Result.err()`: the error payload as an option. -/
def RResult.errOpt : RResult T E → Option E
  | .ok _ => none
  | .err v => some v

/-- Modelled from the spec: `check_deadline` is imported by `task.py`
(`from aiomanager.deadline import check_deadline`) but is missing from the
`deadline.py` sources.  Per the spec, the task's own deadline check reports
"expired" exactly when a deadline is present and has elapsed, and the call
site in `task.py` tests `.err()`, so the check returns a result whose error
side is populated precisely in that case. -/
def check_deadline (deadline : Option Int) (clock : Int) : RResult Unit Unit :=
  match deadline with
  | none => .ok ()
  | some d => if deadline_is_expired d clock then .err () else .ok ()

/-- `TaskStatus` enumeration from `task.py`. -/
inductive TaskStatus where
  | CREATED
  | STARTING
  | PENDING
  | CANCELLED
  | SUCCESS
  | FAILURE
  | TIMEOUT
  | EXCEPTION
deriving DecidableEq, Repr

/-- The terminal statuses, exactly the list tested by `Task.done` and
`Task.cancel` in `task.py`. -/
def TaskStatus.isTerminal : TaskStatus → Bool
  | .FAILURE => true
  | .SUCCESS => true
  | .CANCELLED => true
  | .EXCEPTION => true
  | .TIMEOUT => true
  | _ => false

/-- Observable state of a `TaskManager` (`manager.py`).
`closed` is the `_closed` flag; `hasTaskGroup`, `hasStack` and
`hasShutdownEvent` record whether the corresponding `Option` attributes hold a
value; `cancelCalled` is the task group's `cancel_scope.cancel_called`;
`tgActive` records whether the underlying task group is still accepting new
tasks (it stops doing so once the exit stack has torn it down); and
`shutdownEventSet` is the state of the shutdown event. -/
structure ManagerState where
  closed : Bool
  hasTaskGroup : Bool
  cancelCalled : Bool
  tgActive : Bool
  hasStack : Bool
  hasShutdownEvent : Bool
  shutdownEventSet : Bool
deriving DecidableEq, Repr

/-- `TaskManager.__init__`. -/
def ManagerState.init : ManagerState :=
  { closed := false
    hasTaskGroup := false
    cancelCalled := false
    tgActive := false
    hasStack := false
    hasShutdownEvent := false
    shutdownEventSet := false }

/-- `TaskManager.cancel`: cancels the boundary only when a task group exists
and its scope has not been cancelled yet. -/
def ManagerState.cancel (m : ManagerState) : ManagerState :=
  if m.hasTaskGroup && !m.cancelCalled then { m with cancelCalled := true } else m

/-- `TaskManager.open`: enters a fresh exit stack, registers the shutdown
callback, and enters a fresh task group.  The body contains no failure path
and never touches `_closed`. -/
def ManagerState.open (m : ManagerState) : ManagerState :=
  { m with
    hasStack := true
    hasShutdownEvent := true
    shutdownEventSet := false
    hasTaskGroup := true
    cancelCalled := false
    tgActive := true }

/-- Error values raised by manager operations (`RuntimeError` messages). -/
inductive MgrError where
  | notStarted
  | closed
deriving DecidableEq, Repr

/-- `TaskManager.open` with its (absent) failure path made explicit: the
source body contains no `raise`, so the call always succeeds. -/
def ManagerState.openM (m : ManagerState) : Except MgrError ManagerState :=
  .ok m.open

/-- `TaskManager.close`: exits the stack when present, which tears down the
task group (awaiting the children) and fires the shutdown callback.  Note the
`_closed` flag is never assigned anywhere in `manager.py`. -/
def ManagerState.close (m : ManagerState) : ManagerState :=
  if m.hasStack then { m with tgActive := false, shutdownEventSet := true } else m

/-- Observable state of a `Task` (`task.py`).  `hasShutdownEvent` /
`hasTaskGroup` record whether the corresponding `Option` attributes hold a
value; `ownScopeCancelRequested` records that `cancel()` requested
cancellation of the task's own nested boundary; `parent` is a snapshot of the
parent manager referenced by `_parent_task_manager`; `ephemeral` mirrors
`_ephemeral_task_manager`. -/
structure TaskState (T E : Type) where
  status : TaskStatus
  deadline : Option Int
  result : Option (RResult T E)
  exception : Option Exc
  hasShutdownEvent : Bool
  shutdownEventSet : Bool
  hasTaskGroup : Bool
  ownScopeCancelRequested : Bool
  parent : Option ManagerState
  ephemeral : Option ManagerState
deriving DecidableEq, Repr

/-- `Task.__init__`. -/
def TaskState.init (deadline : Option Int) (parent : Option ManagerState) :
    TaskState T E :=
  { status := .CREATED
    deadline := deadline
    result := none
    exception := none
    hasShutdownEvent := false
    shutdownEventSet := false
    hasTaskGroup := false
    ownScopeCancelRequested := false
    parent := parent
    ephemeral := none }

/-- `Task.done`. -/
def TaskState.done (st : TaskState T E) : Bool :=
  st.status.isTerminal

/-- `Task.cancelled`. -/
def TaskState.cancelled (st : TaskState T E) : Bool :=
  st.status = .TIMEOUT || st.status = .CANCELLED

/-- `Task.ok`: `self._result.and_then(lambda result: result.ok())`. -/
def TaskState.ok (st : TaskState T E) : Option T :=
  st.result.bind RResult.okOpt

/-- `Task.err`: `self._result.and_then(lambda result: result.err())`. -/
def TaskState.err (st : TaskState T E) : Option E :=
  st.result.bind RResult.errOpt

/-- The `finally` clause's `self._shutdown_event.inspect(...)`: sets the event
when one exists and it is not set yet (idempotent). -/
def TaskState.setShutdownEvent (st : TaskState T E) : TaskState T E :=
  if st.hasShutdownEvent then { st with shutdownEventSet := true } else st

/-- `self._parent_task_manager.inspect(lambda manager: manager.cancel())`. -/
def TaskState.cancelParent (st : TaskState T E) : TaskState T E :=
  { st with parent := st.parent.map ManagerState.cancel }

/-- `Task.cancel`: returns the status option the method returns, together with
the updated task state. -/
def TaskState.cancel (st : TaskState T E) : Option TaskStatus × TaskState T E :=
  if st.status = .CREATED then
    (some .CANCELLED, { st with status := .CANCELLED })
  else if st.status.isTerminal then
    (some st.status, st)
  else
    (none,
      if st.hasTaskGroup then { st with ownScopeCancelRequested := true } else st)

/-- Synchronous outcome of calling `wait` / `kill` / `join`. -/
inductive CallResult where
  | returns (s : TaskStatus)
  | notStartedError
  | blocksUntilEvent
deriving DecidableEq, Repr

/-- `Task.wait`: returns the status when the task is done, raises
`RuntimeError("Task is not started")` when there is no shutdown event, and
otherwise blocks on the event. -/
def TaskState.wait (st : TaskState T E) : CallResult :=
  if st.done then .returns st.status
  else if !st.hasShutdownEvent then .notStartedError
  else .blocksUntilEvent

/-- `Task.kill`: raises on CREATED, returns the status produced by `cancel()`
when that status is truthy (a `Some`), else waits. -/
def TaskState.kill (st : TaskState T E) : CallResult :=
  if st.status = .CREATED then .notStartedError
  else
    match st.cancel with
    | (some s, _) => .returns s
    | (none, st') => st'.wait

/-- `Task.join`: when an ephemeral manager is present its `__aexit__` is
awaited first (a manager-side effect); the returned value is always that of
`wait()` on the task. -/
def TaskState.join (st : TaskState T E) : CallResult :=
  st.wait

/-- Whether the task's own `move_on_after` scope has fired.  Its delay is
`deadline - entry clock` (infinite when there is no deadline), so under a
monotone clock its `cancel_called` flag holds exactly when the deadline is
expired at the current clock reading. -/
def scopeCancelCalled (deadline : Option Int) (clock : Int) : Bool :=
  match deadline with
  | none => false
  | some d => deadline_is_expired d clock

/-- How the wrapped function's execution ends, as observed by `Task.__task__`:
a returned `Result`, a cancellation exception, a recoverable `Exception`, or
another `BaseException`. -/
inductive Outcome (T E : Type) where
  | returns (r : RResult T E)
  | cancelledExc
  | raises (e : Exc)
  | raisesBase (e : Exc)
deriving DecidableEq, Repr

/-- Whether `Task.__task__` returns normally or re-raises. -/
inductive TaskExit where
  | normal
  | reraisedCancellation
  | reraisedBase (e : Exc)
deriving DecidableEq, Repr

/-- `Task.__task__`: one whole execution of the task body inside its
`move_on_after` scope, given the body's outcome and the clock reading at the
moment the outcome is observed.  Follows the source's control flow:
the `try` branches, the `finally` clause (set the shutdown event; cancel the
parent manager when the status is not SUCCESS), the scope's swallowing of its
own cancellation, and the trailing `if cancel_scope.cancel_called` block
(reached only when control leaves the `with` block normally, i.e. on the
FAILURE path and on the swallowed-cancellation path). -/
def TaskState.run (clock : Int) (outcome : Outcome T E) (st : TaskState T E) :
    TaskState T E × TaskExit :=
  match outcome with
  | .returns r =>
    let st1 := { st with result := some r }
    match r with
    | .ok _ =>
      -- early `return`: the trailing cancel-scope check is skipped
      (({ st1 with status := .SUCCESS }).setShutdownEvent, .normal)
    | .err _ =>
      let st2 := ({ st1 with status := .FAILURE }).setShutdownEvent.cancelParent
      if scopeCancelCalled st.deadline clock then
        (({ st2 with status := .TIMEOUT }).cancelParent, .normal)
      else
        (st2, .normal)
  | .cancelledExc =>
    let s : TaskStatus :=
      if (check_deadline st.deadline clock).errOpt.isSome then .TIMEOUT
      else .CANCELLED
    let st1 := ({ st with status := s }).setShutdownEvent.cancelParent
    if scopeCancelCalled st.deadline clock then
      -- the scope swallows its own cancellation; the trailing check runs
      (({ st1 with status := .TIMEOUT }).cancelParent, .normal)
    else
      (st1, .reraisedCancellation)
  | .raises e =>
    -- `except Exception`: silenced, early `return`
    (({ st with status := .EXCEPTION, exception := some e
       }).setShutdownEvent.cancelParent, .normal)
  | .raisesBase e =>
    -- `except BaseException`: recorded then re-raised
    (({ st with status := .EXCEPTION, exception := some e
       }).setShutdownEvent.cancelParent, .reraisedBase e)

/-- The guarded tail of `Task.__call__`
(`if self.status == TaskStatus.STARTING: self._status = TaskStatus.PENDING`). -/
def confirmPendingOp (st : TaskState T E) : TaskState T E :=
  if st.status = .STARTING then { st with status := .PENDING } else st

/-- The operations the program can apply to a task, with the preconditions
under which the program applies them: `cancel` at any time; scheduling
(`Task.__call__` entry, which assigns STARTING unconditionally) once — at
that point the task is either still CREATED, or CANCELLED in case the caller
cancelled it between `start_soon` and startup, since `cancel` is the only
status-mutating operation available in that window; the PENDING confirmation
(guarded in the code itself); one body execution after scheduling; and the
scheduling-failure branch of `Task.__call__`. -/
inductive TaskStep {T E : Type} : TaskState T E → TaskState T E → Prop where
  | cancel (st : TaskState T E) : TaskStep st st.cancel.2
  | schedule (st : TaskState T E)
      (h : st.status = .CREATED ∨ st.status = .CANCELLED) :
      TaskStep st
        { st with status := .STARTING, hasShutdownEvent := true, hasTaskGroup := true }
  | confirmPending (st : TaskState T E) : TaskStep st (confirmPendingOp st)
  | run (clock : Int) (outcome : Outcome T E) (st : TaskState T E)
      (h : st.status = .STARTING ∨ st.status = .PENDING) :
      TaskStep st (st.run clock outcome).1
  | schedFailure (e : Exc) (st : TaskState T E) (h : st.status = .STARTING) :
      TaskStep st
        ({ st with status := .EXCEPTION, exception := some e }).setShutdownEvent

/-- Outcome of `TaskManager.submit_task` / `start_task`. -/
inductive SubmitResult (T E : Type) where
  | notStartedError
  | closedError
  | scheduled (task : TaskState T E) (m : ManagerState)
  | fastPathTimeout (task : TaskState T E) (m : ManagerState)
deriving DecidableEq, Repr

/-- `TaskManager.submit_task` (the `catch`/`name` arguments do not affect the
state covered here).  The created task references the manager, so in the fast
path its parent snapshot reflects the cancellation performed before return. -/
def ManagerState.submit_task (m : ManagerState) (timeout deadline : Option Int)
    (clock : Int) : SubmitResult T E :=
  if !m.hasTaskGroup then .notStartedError
  else if m.closed then .closedError
  else
    let dOpt := create_deadline timeout deadline clock
    if isSomeAnd dOpt (fun d => deadline_is_expired d clock) then
      let m' := m.cancel
      .fastPathTimeout { TaskState.init dOpt (some m') with status := .TIMEOUT } m'
    else
      .scheduled (TaskState.init dOpt (some m)) m

/-- `TaskManager.start_task`: identical guards and fast path; the only
difference from `submit_task` is that scheduling awaits the task's start. -/
def ManagerState.start_task (m : ManagerState) (timeout deadline : Option Int)
    (clock : Int) : SubmitResult T E :=
  if !m.hasTaskGroup then .notStartedError
  else if m.closed then .closedError
  else
    let dOpt := create_deadline timeout deadline clock
    if isSomeAnd dOpt (fun d => deadline_is_expired d clock) then
      let m' := m.cancel
      .fastPathTimeout { TaskState.init dOpt (some m') with status := .TIMEOUT } m'
    else
      .scheduled (TaskState.init dOpt (some m)) m

@[simp]
theorem setShutdownEvent_status (st : TaskState T E) :
    st.setShutdownEvent.status = st.status := by
  unfold TaskState.setShutdownEvent; split <;> rfl

@[simp]
theorem setShutdownEvent_result (st : TaskState T E) :
    st.setShutdownEvent.result = st.result := by
  unfold TaskState.setShutdownEvent; split <;> rfl

@[simp]
theorem setShutdownEvent_exception (st : TaskState T E) :
    st.setShutdownEvent.exception = st.exception := by
  unfold TaskState.setShutdownEvent; split <;> rfl

@[simp]
theorem setShutdownEvent_deadline (st : TaskState T E) :
    st.setShutdownEvent.deadline = st.deadline := by
  unfold TaskState.setShutdownEvent; split <;> rfl

@[simp]
theorem setShutdownEvent_parent (st : TaskState T E) :
    st.setShutdownEvent.parent = st.parent := by
  unfold TaskState.setShutdownEvent; split <;> rfl

@[simp]
theorem cancelParent_status (st : TaskState T E) :
    st.cancelParent.status = st.status := rfl

@[simp]
theorem cancelParent_result (st : TaskState T E) :
    st.cancelParent.result = st.result := rfl

@[simp]
theorem cancelParent_exception (st : TaskState T E) :
    st.cancelParent.exception = st.exception := rfl

@[simp]
theorem cancelParent_deadline (st : TaskState T E) :
    st.cancelParent.deadline = st.deadline := rfl

@[simp]
theorem cancelParent_parent (st : TaskState T E) :
    st.cancelParent.parent = st.parent.map ManagerState.cancel := rfl

/-- Cancelling an open manager's boundary leaves `cancel_called` set. -/
theorem ManagerState.cancel_cancelCalled (m : ManagerState)
    (h : m.hasTaskGroup = true) : m.cancel.cancelCalled = true := by
  unfold ManagerState.cancel
  by_cases hc : m.cancelCalled <;> simp [h, hc]

/-- `TaskManager.cancel` is idempotent. -/
theorem ManagerState.cancel_idem (m : ManagerState) : m.cancel.cancel = m.cancel := by
  unfold ManagerState.cancel
  by_cases h1 : m.hasTaskGroup <;> by_cases h2 : m.cancelCalled <;> simp [h1, h2]

/-- `TaskManager.cancel` is a no-op on a manager whose boundary is already
cancelled. -/
theorem ManagerState.cancel_noop (m : ManagerState) (h : m.cancelCalled = true) :
    m.cancel = m := by
  unfold ManagerState.cancel; simp [h]

/-- A task operation applied to a task in a terminal status other than
CANCELLED changes nothing. -/
theorem taskStep_terminal_frozen {st st' : TaskState T E}
    (h : TaskStep st st') (ht : st.status.isTerminal = true)
    (hnc : st.status ≠ .CANCELLED) : st' = st := by
  cases h with
  | cancel st =>
    cases hs : st.status <;>
      simp_all [TaskState.cancel, TaskStatus.isTerminal]
  | schedule st hc =>
    rcases hc with h1 | h1
    · rw [h1] at ht; simp [TaskStatus.isTerminal] at ht
    · exact absurd h1 hnc
  | confirmPending st =>
    cases hs : st.status <;> simp_all [confirmPendingOp, TaskStatus.isTerminal]
  | run clock outcome st hrun =>
    rcases hrun with h1 | h1 <;> rw [h1] at ht <;>
      simp [TaskStatus.isTerminal] at ht
  | schedFailure e st hs =>
    rw [hs] at ht; simp [TaskStatus.isTerminal] at ht

/-- The only operation that changes a task in terminal status CANCELLED is
the scheduler's startup assignment of STARTING (`Task.__call__`, reachable
when the task was cancelled between submission and startup). -/
theorem taskStep_cancelled_cases {st st' : TaskState T E}
    (h : TaskStep st st') (hc : st.status = .CANCELLED) :
    st' = st ∨
      st' = { st with
        status := .STARTING, hasShutdownEvent := true, hasTaskGroup := true } := by
  cases h with
  | cancel st =>
    left; simp [TaskState.cancel, hc, TaskStatus.isTerminal]
  | schedule st hs => right; rfl
  | confirmPending st =>
    left; simp [confirmPendingOp, hc]
  | run clock outcome st hrun =>
    rcases hrun with h1 | h1 <;> rw [h1] at hc <;> simp at hc
  | schedFailure e st hs =>
    rw [hs] at hc; simp at hc

/-- Any sequence of task operations leaves a task in a terminal status other
than CANCELLED unchanged. -/
theorem taskSteps_terminal_frozen {st st' : TaskState T E}
    (h : Relation.ReflTransGen TaskStep st st') (ht : st.status.isTerminal = true)
    (hnc : st.status ≠ .CANCELLED) : st' = st := by
  induction h with
  | refl => rfl
  | tail _ hstep ih =>
    rw [ih] at hstep
    exact taskStep_terminal_frozen hstep ht hnc

/-- Consistency of the stored fields with the status: a stored `Result` only
with SUCCESS, FAILURE or TIMEOUT; a stored exception only with EXCEPTION. -/
def taskInv (st : TaskState T E) : Bool :=
  (!st.result.isSome ||
    decide (st.status = .SUCCESS ∨ st.status = .FAILURE ∨ st.status = .TIMEOUT)) &&
  (!st.exception.isSome || decide (st.status = .EXCEPTION))

/-- The initial task state satisfies the field-consistency invariant. -/
theorem taskInv_init (deadline : Option Int) (parent : Option ManagerState) :
    taskInv (TaskState.init (T := T) (E := E) deadline parent) = true := rfl

/-- The invariant forces the stored `Result` empty away from SUCCESS,
FAILURE and TIMEOUT. -/
theorem taskInv_result_none {st : TaskState T E} (hi : taskInv st = true)
    (hs : st.status ≠ .SUCCESS) (hf : st.status ≠ .FAILURE)
    (ht : st.status ≠ .TIMEOUT) : st.result = none := by
  simp [taskInv] at hi
  rcases hi.1 with h | h | h | h
  · exact h
  · exact absurd h hs
  · exact absurd h hf
  · exact absurd h ht

/-- The invariant forces the stored exception empty away from EXCEPTION. -/
theorem taskInv_exception_none {st : TaskState T E} (hi : taskInv st = true)
    (he : st.status ≠ .EXCEPTION) : st.exception = none := by
  simp [taskInv] at hi
  rcases hi.2 with h | h
  · exact h
  · exact absurd h he

/-- On a non-terminal task the invariant forces both stored fields empty. -/
theorem taskInv_fields {st : TaskState T E} (hi : taskInv st = true)
    (hs : st.status.isTerminal = false) :
    st.result = none ∧ st.exception = none := by
  refine ⟨taskInv_result_none hi ?_ ?_ ?_, taskInv_exception_none hi ?_⟩ <;>
    intro h <;> rw [h] at hs <;> simp [TaskStatus.isTerminal] at hs

/-- Every task operation preserves the field-consistency invariant. -/
theorem taskStep_inv {st st' : TaskState T E}
    (h : TaskStep st st') (hi : taskInv st = true) : taskInv st' = true := by
  cases h with
  | cancel st =>
    cases hs : st.status <;>
      simp_all [TaskState.cancel, TaskStatus.isTerminal, taskInv] <;> split <;> simp_all
  | schedule st hc =>
    have hres : st.result = none :=
      taskInv_result_none hi (by rcases hc with h1 | h1 <;> rw [h1] <;> decide)
        (by rcases hc with h1 | h1 <;> rw [h1] <;> decide)
        (by rcases hc with h1 | h1 <;> rw [h1] <;> decide)
    have hexc : st.exception = none :=
      taskInv_exception_none hi
        (by rcases hc with h1 | h1 <;> rw [h1] <;> decide)
    simp [taskInv, hres, hexc]
  | confirmPending st =>
    cases hs : st.status <;> simp_all [confirmPendingOp, taskInv]
  | run clock outcome st hrun =>
    obtain ⟨hres, hexc⟩ := taskInv_fields hi (by rcases hrun with h1 | h1 <;> rw [h1] <;> rfl)
    cases outcome with
    | returns r =>
      cases r with
      | ok v => simp [TaskState.run, taskInv, hexc]
      | err v =>
        by_cases hc : scopeCancelCalled st.deadline clock <;>
          simp [TaskState.run, taskInv, hexc, hc]
    | cancelledExc =>
      by_cases hc : scopeCancelCalled st.deadline clock <;>
      by_cases he : (check_deadline st.deadline clock).errOpt.isSome <;>
        simp [TaskState.run, taskInv, hexc, hres, hc, he]
    | raises e => simp [TaskState.run, taskInv, hres]
    | raisesBase e => simp [TaskState.run, taskInv, hres]
  | schedFailure e st hs =>
    obtain ⟨hres, hexc⟩ := taskInv_fields hi (by rw [hs]; rfl)
    simp [taskInv, hres]

/-- C1: when a running task observes a cancellation exception, its terminal
status is TIMEOUT exactly when `check_deadline` applied to the task's own
deadline reports expired at the moment the cancellation is observed, and
CANCELLED otherwise. -/
theorem c1_cancellation_classified_by_check_deadline (clock : Int)
    (st : TaskState T E) :
    (st.run clock .cancelledExc).1.status =
      (if (check_deadline st.deadline clock).errOpt.isSome then TaskStatus.TIMEOUT
       else TaskStatus.CANCELLED) := by
  cases hd : st.deadline with
  | none => simp [TaskState.run, check_deadline, scopeCancelCalled, hd, RResult.errOpt]
  | some d =>
    by_cases he : deadline_is_expired d clock <;>
      simp [TaskState.run, check_deadline, scopeCancelCalled, hd, he, RResult.errOpt]

/-- C5 counterexample: with only a zero duration given (`timeout = 0`,
`deadline = None`, `clock() = 5`), `create_deadline` returns no deadline
instead of the lone derived value `clock() + 0`: a zero argument is falsy in
Python and is treated as absent. -/
theorem c5_counterexample :
    create_deadline (some 0) none 5 = none ∧
    (none : Option Int) ≠ some (5 + 0) := by decide

/-- The deadline derived from the duration argument per the spec's words,
with "given" read as Python truthiness (present and non-zero). -/
def derivedFromTimeout (timeout : Option Int) (clock : Int) : Option Int :=
  match timeout with
  | some v => if v ≠ 0 then some (clock + v) else none
  | none => none

/-- The deadline derived from the absolute argument per the spec's words,
with "given" read as Python truthiness (present and non-zero). -/
def derivedFromDeadline (deadline : Option Int) : Option Int :=
  match deadline with
  | some v => if v ≠ 0 then some v else none
  | none => none

/-- "the minimum of the two derived values when both given; the lone derived
value when only one given; none when neither given". -/
def minOption : Option Int → Option Int → Option Int
  | some a, some b => some (min a b)
  | some a, none => some a
  | none, some b => some b
  | none, none => none

/-- C5 (amended): with "given" meaning passed and non-zero (Python
truthiness), `create_deadline` returns the minimum of the derived values when
both are given, the lone derived value when exactly one is given, and none
when neither is given. -/
theorem c5_amended_create_deadline_min (t d : Option Int) (c : Int) :
    create_deadline t d c = minOption (derivedFromTimeout t c) (derivedFromDeadline d) := by
  cases t with
  | none =>
    cases d with
    | none => rfl
    | some dv =>
      by_cases hd : dv = 0 <;>
        simp [create_deadline, truthy, derivedFromTimeout, derivedFromDeadline,
          minOption, hd]
  | some tv =>
    cases d with
    | none =>
      by_cases ht : tv = 0 <;>
        simp [create_deadline, truthy, derivedFromTimeout, derivedFromDeadline,
          minOption, ht]
    | some dv =>
      by_cases ht : tv = 0 <;> by_cases hd : dv = 0 <;>
        simp [create_deadline, truthy, derivedFromTimeout, derivedFromDeadline,
          minOption, ht, hd]

/-- C6: a freshly constructed task is CREATED, not done, not cancelled, all
of result/ok/err/exception are absent, and `wait`, `kill`, `join` fail with
the "not started" error. -/
theorem c6_fresh_task (deadline : Option Int) (parent : Option ManagerState) :
    (TaskState.init (T := T) (E := E) deadline parent).status = .CREATED ∧
    (TaskState.init (T := T) (E := E) deadline parent).done = false ∧
    (TaskState.init (T := T) (E := E) deadline parent).cancelled = false ∧
    (TaskState.init (T := T) (E := E) deadline parent).result = none ∧
    (TaskState.init (T := T) (E := E) deadline parent).ok = none ∧
    (TaskState.init (T := T) (E := E) deadline parent).err = none ∧
    (TaskState.init (T := T) (E := E) deadline parent).exception = none ∧
    (TaskState.init (T := T) (E := E) deadline parent).wait = .notStartedError ∧
    (TaskState.init (T := T) (E := E) deadline parent).kill = .notStartedError ∧
    (TaskState.init (T := T) (E := E) deadline parent).join = .notStartedError :=
  ⟨rfl, rfl, rfl, rfl, rfl, rfl, rfl, rfl, rfl, rfl⟩

/-- C7: `cancel()` on a CREATED task moves it to CANCELLED and returns the
new status; on a terminal task it returns the existing status with the state
unchanged (so repeated calls converge); on a PENDING task with its nested
boundary in place it requests cancellation of that boundary and returns no
terminal status. -/
theorem c7_cancel_semantics (st : TaskState T E) :
    (st.status = .CREATED →
      st.cancel = (some .CANCELLED, { st with status := .CANCELLED })) ∧
    (st.status.isTerminal = true → st.cancel = (some st.status, st)) ∧
    (st.status = .PENDING → st.hasTaskGroup = true →
      st.cancel = (none, { st with ownScopeCancelRequested := true })) := by
  refine ⟨?_, ?_, ?_⟩
  · intro h; simp [TaskState.cancel, h]
  · intro h
    have hne : st.status ≠ .CREATED := by
      intro he; rw [he] at h; simp [TaskStatus.isTerminal] at h
    simp [TaskState.cancel, hne, h]
  · intro h1 h2
    simp [TaskState.cancel, h1, TaskStatus.isTerminal, h2]

/-- Witness for C7: cancelling a freshly constructed task. -/
theorem c7_witness :
    (TaskState.init (T := Nat) (E := Nat) none none).cancel =
      (some .CANCELLED,
        { TaskState.init (T := Nat) (E := Nat) none none with status := .CANCELLED }) :=
  (c7_cancel_semantics _).1 rfl

/-- C3: on every exit path of the task body whose resulting status is not
SUCCESS, the task requests cancellation of its parent supervisor's boundary;
the request is a no-op on an already-cancelled boundary, and a task without a
parent manager is left without one. -/
theorem c3_failfast_cancels_parent (clock : Int) (outcome : Outcome T E)
    (st : TaskState T E) :
    ((st.run clock outcome).1.status ≠ .SUCCESS →
      (st.run clock outcome).1.parent = st.parent.map ManagerState.cancel) ∧
    (∀ m : ManagerState, m.cancelCalled = true → m.cancel = m) ∧
    (st.parent = none → (st.run clock outcome).1.parent = none) := by
  refine ⟨?_, fun m hm => ManagerState.cancel_noop m hm, ?_⟩
  · intro hns
    cases outcome with
    | returns r =>
      cases r with
      | ok v => exact absurd (by simp [TaskState.run]) hns
      | err v =>
        by_cases hc : scopeCancelCalled st.deadline clock <;>
          cases hp : st.parent <;>
            simp [TaskState.run, hc, hp, ManagerState.cancel_idem]
    | cancelledExc =>
      by_cases hc : scopeCancelCalled st.deadline clock <;>
        cases hp : st.parent <;>
          simp [TaskState.run, hc, hp, ManagerState.cancel_idem]
    | raises e => cases hp : st.parent <;> simp [TaskState.run, hp]
    | raisesBase e => cases hp : st.parent <;> simp [TaskState.run, hp]
  · intro hp
    cases outcome with
    | returns r =>
      cases r with
      | ok v => simp [TaskState.run, hp]
      | err v =>
        by_cases hc : scopeCancelCalled st.deadline clock <;>
          simp [TaskState.run, hc, hp]
    | cancelledExc =>
      by_cases hc : scopeCancelCalled st.deadline clock <;>
        simp [TaskState.run, hc, hp]
    | raises e => simp [TaskState.run, hp]
    | raisesBase e => simp [TaskState.run, hp]

/-- Witness for C3: a recoverable exception inside a supervised task cancels
the parent's boundary. -/
theorem c3_witness :
    ((TaskState.init (T := Nat) (E := Nat) none
        (some ManagerState.init.open)).run 0 (.raises 3)).1.parent =
      (some ManagerState.init.open).map ManagerState.cancel :=
  (c3_failfast_cancels_parent 0 (.raises 3) _).1 (by decide)

/-- C4 counterexamples, both reachable from a fresh task.  First: an
execution in which the wrapped function returns an error `Result` after the
task's deadline scope has fired ends with status TIMEOUT while the stored
`Result` field is populated, contradicting "the stored Result field is
populated only when the terminal status is SUCCESS or FAILURE" (the trailing
`cancel_scope.cancel_called` block of `Task.__task__` overwrites FAILURE with
TIMEOUT).  Second: a task cancelled between submission and startup reaches
terminal CANCELLED, after which `Task.__call__` unconditionally assigns
STARTING, contradicting "once terminal, the status never changes again". -/
theorem c4_counterexample :
    (∃ st' : TaskState Nat Nat,
      Relation.ReflTransGen TaskStep (TaskState.init (some 5) none) st' ∧
      st'.result.isSome = true ∧ st'.status ≠ .SUCCESS ∧ st'.status ≠ .FAILURE) ∧
    (∃ st1 st2 : TaskState Nat Nat,
      Relation.ReflTransGen TaskStep (TaskState.init none none) st1 ∧
      TaskStep st1 st2 ∧
      st1.status.isTerminal = true ∧ st2.status ≠ st1.status) := by
  constructor
  · refine ⟨((confirmPendingOp
        ({ TaskState.init (some 5) none with
           status := .STARTING, hasShutdownEvent := true, hasTaskGroup := true }
          : TaskState Nat Nat)).run 10 (.returns (.err 7))).1, ?_, ?_, ?_, ?_⟩
    · exact Relation.ReflTransGen.tail
        (Relation.ReflTransGen.tail
          (Relation.ReflTransGen.tail Relation.ReflTransGen.refl
            (TaskStep.schedule _ (Or.inl rfl)))
          (TaskStep.confirmPending _))
        (TaskStep.run 10 (.returns (.err 7)) _ (Or.inr (by decide)))
    · decide
    · decide
    · decide
  · refine ⟨(TaskState.init (T := Nat) (E := Nat) none none).cancel.2,
      { (TaskState.init (T := Nat) (E := Nat) none none).cancel.2 with
        status := .STARTING, hasShutdownEvent := true, hasTaskGroup := true },
      ?_, ?_, ?_, ?_⟩
    · exact Relation.ReflTransGen.tail Relation.ReflTransGen.refl
        (TaskStep.cancel _)
    · exact TaskStep.schedule _ (Or.inr (by decide))
    · decide
    · decide

/-- C4 (amended): along every sequence of task operations starting from a
fresh task, the stored exception is populated only with terminal status
EXCEPTION and the stored `Result` only with terminal status SUCCESS, FAILURE,
or TIMEOUT — TIMEOUT with a stored `Result` arising when the body returns an
error `Result` after the deadline scope has fired, which supersedes FAILURE.
Once the status is terminal no operation changes the task again, with a
single exception: a task cancelled between submission and startup (terminal
CANCELLED) is overwritten to STARTING when the scheduler runs
`Task.__call__`. -/
theorem c4_amended_task_invariants (d : Option Int) (p : Option ManagerState)
    (st st' : TaskState T E)
    (hreach : Relation.ReflTransGen TaskStep (TaskState.init d p) st) :
    taskInv st = true ∧
    (TaskStep st st' → st.status.isTerminal = true →
      (st' = st ∨ (st.status = .CANCELLED ∧
        st' = { st with
          status := .STARTING, hasShutdownEvent := true,
          hasTaskGroup := true }))) := by
  constructor
  · induction hreach with
    | refl => exact taskInv_init d p
    | tail _ hstep ih => exact taskStep_inv hstep ih
  · intro hstep ht
    by_cases hcanc : st.status = .CANCELLED
    · rcases taskStep_cancelled_cases hstep hcanc with h | h
      · exact Or.inl h
      · exact Or.inr ⟨hcanc, h⟩
    · exact Or.inl (taskStep_terminal_frozen hstep ht hcanc)

/-- Witness for C4: the invariant holds at a fresh task, by the theorem
applied to the empty operation sequence. -/
theorem c4_witness :
    taskInv (TaskState.init (T := Nat) (E := Nat) none none) = true :=
  (c4_amended_task_invariants none none (TaskState.init none none)
    (TaskState.init none none) Relation.ReflTransGen.refl).1

/-- C2: submitting (or starting) a task on an open manager when the computed
deadline is already expired cancels the manager's boundary and returns a
TIMEOUT task through the fast path, without scheduling it; no sequence of
task operations can bring that task to PENDING. -/
theorem c2_expired_at_submission (m : ManagerState) (t d : Option Int)
    (clock : Int) (hopen : m.hasTaskGroup = true) (hclosed : m.closed = false)
    (hexp : isSomeAnd (create_deadline t d clock)
      (fun dl => deadline_is_expired dl clock) = true) :
    ∃ task : TaskState T E, ∃ m' : ManagerState,
      ManagerState.submit_task m t d clock = .fastPathTimeout task m' ∧
      ManagerState.start_task m t d clock = .fastPathTimeout task m' ∧
      task.status = .TIMEOUT ∧ m'.cancelCalled = true ∧
      ∀ st' : TaskState T E,
        Relation.ReflTransGen TaskStep task st' → st'.status ≠ .PENDING := by
  refine ⟨{ TaskState.init (create_deadline t d clock) (some m.cancel) with
      status := .TIMEOUT }, m.cancel, ?_, ?_, rfl,
    ManagerState.cancel_cancelCalled m hopen, ?_⟩
  · unfold ManagerState.submit_task
    simp [hopen, hclosed, hexp]
  · unfold ManagerState.start_task
    simp [hopen, hclosed, hexp]
  · intro st' hst
    have hfix := taskSteps_terminal_frozen hst (by rfl) (by simp)
    rw [hfix]
    simp

/-- Witness for C2: an absolute deadline of `-1` submitted at clock `0`. -/
theorem c2_witness :
    ∃ task : TaskState Nat Nat, ∃ m' : ManagerState,
      ManagerState.submit_task ManagerState.init.open none (some (-1)) 0 =
        .fastPathTimeout task m' ∧
      ManagerState.start_task ManagerState.init.open none (some (-1)) 0 =
        .fastPathTimeout task m' ∧
      task.status = .TIMEOUT ∧ m'.cancelCalled = true ∧
      ∀ st' : TaskState Nat Nat,
        Relation.ReflTransGen TaskStep task st' → st'.status ≠ .PENDING :=
  c2_expired_at_submission ManagerState.init.open none (some (-1)) 0 rfl rfl
    (by decide)

/-- C8: evaluation at the failing input.  After `open()` then `close()`, the
`closed()` query still reports false — `close()` (and nothing else in
`manager.py`) ever assigns the `_closed` flag, contradicting the `closed()`
docstring "Return `True` if task manager is exited or cancelled" — so
`submit_task` does not fail with the "closed" error: it passes both guards
and proceeds to schedule on the already torn-down task group.  A manager
that was never opened does fail with the "not started" error. -/
theorem c8_closed_flag_never_set :
    (ManagerState.init.open.close).closed = false ∧
    ManagerState.submit_task (T := Nat) (E := Nat) ManagerState.init.open.close
        none none 0 =
      .scheduled (TaskState.init none (some ManagerState.init.open.close))
        ManagerState.init.open.close ∧
    (ManagerState.init.open.close).tgActive = false ∧
    ManagerState.submit_task (T := Nat) (E := Nat) ManagerState.init none none 0 =
      .notStartedError := by
  decide

/-- C9 counterexample: `open()` contains no failure path, so calling it a
second time on an already-opened manager succeeds instead of failing, and
simply re-creates the boundary and tracking state. -/
theorem c9_counterexample :
    ManagerState.openM (ManagerState.init.open) = .ok ManagerState.init.open.open ∧
    ManagerState.init.open.open = ManagerState.init.open := ⟨rfl, rfl⟩

/-- C9 (amended): `open()` does not fail when called a second time on the
same manager: the call succeeds and re-creates the boundary and the
closed/shutdown tracking, leaving the same state as a single `open()`. -/
theorem c9_amended_open_twice (m : ManagerState) :
    (m.open).openM = .ok m.open.open ∧ m.open.open = m.open := by
  exact ⟨rfl, rfl⟩

/-- C10: a task produced by the expired-at-submission fast path (TIMEOUT,
never scheduled, no shutdown event) does not raise the "not started" error
from `wait`, `kill` or `join`: the terminal-status check precedes the
not-started check, so all three return TIMEOUT immediately. -/
theorem c10_fastpath_task_operations (m : ManagerState) (t d : Option Int)
    (clock : Int) (task : TaskState T E) (m' : ManagerState)
    (h : ManagerState.submit_task m t d clock = .fastPathTimeout task m') :
    task.hasShutdownEvent = false ∧
    task.wait = .returns .TIMEOUT ∧
    task.kill = .returns .TIMEOUT ∧
    task.join = .returns .TIMEOUT := by
  unfold ManagerState.submit_task at h
  by_cases h1 : m.hasTaskGroup <;> simp [h1] at h
  by_cases h2 : m.closed <;> simp [h2] at h
  by_cases h3 : isSomeAnd (create_deadline t d clock)
      (fun dl => deadline_is_expired dl clock) <;> simp [h3] at h
  obtain ⟨htask, hm⟩ := h
  rw [← htask]
  exact ⟨rfl, rfl, rfl, rfl⟩

/-- Witness for C10: the fast-path task of an absolute deadline `-1`
submitted at clock `0`. -/
theorem c10_witness :
    ({ TaskState.init (T := Nat) (E := Nat) (some (-1))
        (some ManagerState.init.open.cancel) with
       status := .TIMEOUT }).hasShutdownEvent = false ∧
    ({ TaskState.init (T := Nat) (E := Nat) (some (-1))
        (some ManagerState.init.open.cancel) with
       status := .TIMEOUT }).wait = .returns .TIMEOUT ∧
    ({ TaskState.init (T := Nat) (E := Nat) (some (-1))
        (some ManagerState.init.open.cancel) with
       status := .TIMEOUT }).kill = .returns .TIMEOUT ∧
    ({ TaskState.init (T := Nat) (E := Nat) (some (-1))
        (some ManagerState.init.open.cancel) with
       status := .TIMEOUT }).join = .returns .TIMEOUT :=
  c10_fastpath_task_operations ManagerState.init.open none (some (-1)) 0
    { TaskState.init (some (-1)) (some ManagerState.init.open.cancel) with
      status := .TIMEOUT }
    ManagerState.init.open.cancel (by decide)

end AioManager
